import Mathlib

/-!
Verification of the repo-manager service (Rust) against its natural-language
specification.  The sources under verification are `src/app.rs`,
`src/main.rs` and `src/bin/gentoken.rs`.

Embedding conventions: pure fragments become Lean functions; the straight-line
process lifecycle of `main` becomes an explicit event trace; the filesystem
and the external `gpg2` signing process are oracles passed as parameters;
Rust `i64` timestamps are `Int`, bytes are `Nat`.  Filesystem paths are
component lists (`List String`), `Path::join` is list append.
-/

namespace RepoManager

/-! ## Bytes and base64 (model of the `base64` crate used by both binaries) -/

/-- Value of one base64 alphabet character (standard alphabet). -/
def b64val (c : Char) : Option Nat :=
  if 'A' ≤ c ∧ c ≤ 'Z' then some (c.toNat - 65)
  else if 'a' ≤ c ∧ c ≤ 'z' then some (c.toNat - 97 + 26)
  else if '0' ≤ c ∧ c ≤ '9' then some (c.toNat - 48 + 52)
  else if c = '+' then some 62
  else if c = '/' then some 63
  else none

/-- Decode one 4-character base64 block, honouring trailing padding. -/
def b64chunk : List Char → Option (List Nat)
  | [a, b, '=', '='] =>
    match b64val a, b64val b with
    | some va, some vb => some [va * 4 + vb / 16]
    | _, _ => none
  | [a, b, c, '='] =>
    match b64val a, b64val b, b64val c with
    | some va, some vb, some vc => some [va * 4 + vb / 16, vb % 16 * 16 + vc / 4]
    | _, _, _ => none
  | [a, b, c, d] =>
    match b64val a, b64val b, b64val c, b64val d with
    | some va, some vb, some vc, some vd =>
      some [va * 4 + vb / 16, vb % 16 * 16 + vc / 4, vc % 4 * 64 + vd]
    | _, _, _, _ => none
  | _ => none

/-- Decode a base64 character stream in blocks of four; padding may only
occur in the final block. -/
def b64decodeChars : List Char → Option (List Nat)
  | [] => some []
  | a :: b :: c :: d :: rest =>
    if rest.isEmpty then b64chunk [a, b, c, d]
    else if c = '=' ∨ d = '=' then none
    else
      match b64chunk [a, b, c, d], b64decodeChars rest with
      | some x, some y => some (x ++ y)
      | _, _ => none
  | _ => none

/-- `base64::decode` (standard alphabet, padded). -/
def base64decode (s : String) : Option (List Nat) :=
  b64decodeChars s.data

/-- Base64 alphabet character for a 6-bit value. -/
def b64chr (n : Nat) : Char :=
  if n < 26 then Char.ofNat (65 + n)
  else if n < 52 then Char.ofNat (97 + (n - 26))
  else if n < 62 then Char.ofNat (48 + (n - 52))
  else if n = 62 then '+' else '/'

/-- Encode bytes in blocks of three with padding. -/
def b64encodeBytes : List Nat → List Char
  | [] => []
  | [a] => [b64chr (a / 4), b64chr (a % 4 * 16), '=', '=']
  | [a, b] => [b64chr (a / 4), b64chr (a % 4 * 16 + b / 16), b64chr (b % 16 * 4), '=']
  | a :: b :: c :: rest =>
    b64chr (a / 4) :: b64chr (a % 4 * 16 + b / 16) ::
      b64chr (b % 16 * 4 + c / 64) :: b64chr (c % 64) :: b64encodeBytes rest

/-- `base64::encode`. -/
def base64encode (bytes : List Nat) : String :=
  String.mk (b64encodeBytes bytes)

/-- Rust `str::as_bytes`: the UTF-8 bytes of a string. -/
def strBytes (s : String) : List Nat :=
  (s.data.flatMap (fun c => String.utf8EncodeChar c)).map (fun b => b.toNat)

/-- Rust `str::starts_with` on string patterns (and the single-character
patterns actix-web uses). -/
def strStartsWith (s p : String) : Bool :=
  p.data.isPrefixOf s.data

/-- Rust `str::ends_with`. -/
def strEndsWith (s p : String) : Bool :=
  p.data.reverse.isPrefixOf s.data.reverse

/-- Rust `str::trim` (whitespace from both ends). -/
def strTrim (s : String) : String :=
  String.mk (((s.data.dropWhile Char.isWhitespace).reverse.dropWhile
    Char.isWhitespace).reverse)

/-- Accumulator pass of Rust `str::split(sep)`. -/
def splitSegsAux (sep : Char) : List Char → List Char → List (List Char)
  | [], acc => [acc.reverse]
  | c :: rest, acc =>
    if c = sep then acc.reverse :: splitSegsAux sep rest []
    else splitSegsAux sep rest (c :: acc)

/-- Rust `str::split('/')`: the '/'-separated components, keeping empty ones. -/
def splitSlash (s : String) : List String :=
  (splitSegsAux '/' s.data []).map String.mk

/-! ## Path sanitisation

`handle_build_repo` in `src/app.rs` sanitises both the `tail` and `id` route
parameters through actix-web 0.7's `impl FromParam for PathBuf`
(`PathBuf::from_param`).  That implementation walks the '/'-separated
components: a `..` component pops the previously accepted component
(`buf.pop()`), a component starting with '.' or '*' or ending in ':', '>'
or '<' aborts with an error, an empty component is skipped, and anything
else is pushed.  (The `cfg!(windows)` backslash check is dead on the Linux
target and omitted.) -/

/-- `tail.trim_left_matches('/')` from `handle_build_repo`. -/
def stripLeadingSlashes (s : String) : String :=
  String.mk (s.data.dropWhile (fun c => c = '/'))

/-- One iteration of the `PathBuf::from_param` component loop. -/
def fromParamStep (acc : Option (List String)) (seg : String) : Option (List String) :=
  match acc with
  | none => none
  | some buf =>
    if seg = ".." then some buf.dropLast
    else if strStartsWith seg "." then none
    else if strStartsWith seg "*" then none
    else if strEndsWith seg ":" then none
    else if strEndsWith seg ">" then none
    else if strEndsWith seg "<" then none
    else if seg = "" then some buf
    else some (buf ++ [seg])

/-- actix-web `PathBuf::from_param`: sanitise a route parameter into a
relative path (a component list), or reject it. -/
def from_param (s : String) : Option (List String) :=
  (splitSlash s).foldl fromParamStep (some [])

/-- Components that `from_param` can ever output: nonempty and not starting
with '.' — in particular never ".." and never an absolute override. -/
def goodSeg (s : String) : Prop :=
  s ≠ "" ∧ strStartsWith s "." = false

/-- `handle_build_repo` (src/app.rs lines 43-56): resolve `tail` under
`build_repo_base_path/id`, falling back to `repo_path/tail` when opening the
build-scoped file fails.  `openable` is the filesystem oracle standing for
`NamedFile::open` succeeding; the returned value is the path of the file
served, `none` meaning the request errors out. -/
def handle_build_repo (build_repo_base_path repo_path : List String)
    (id tail : String) (openable : List String → Bool) : Option (List String) :=
  match from_param (stripLeadingSlashes tail) with
  | none => none
  | some relpath =>
    match from_param id with
    | none => none
    | some safe_id =>
      if openable (build_repo_base_path ++ safe_id ++ relpath) then
        some (build_repo_base_path ++ safe_id ++ relpath)
      else if openable (repo_path ++ relpath) then some (repo_path ++ relpath)
      else none

end RepoManager

namespace RepoManager

/-! ## Helper lemmas about `from_param` -/

theorem foldl_fromParamStep_none (segs : List String) :
    segs.foldl fromParamStep none = none := by
  induction segs with
  | nil => rfl
  | cons s rest ih =>
    rw [List.foldl_cons]
    exact ih

theorem fromParamStep_some_cases (buf out : List String) (seg : String)
    (h : fromParamStep (some buf) seg = some out) :
    out = buf.dropLast ∨ out = buf ∨ (out = buf ++ [seg] ∧ goodSeg seg) := by
  unfold fromParamStep at h
  split_ifs at h with h1 h2 h3 h4 h5 h6 h7
  · exact Or.inl (Option.some.inj h).symm
  · exact Or.inr (Or.inl (Option.some.inj h).symm)
  · refine Or.inr (Or.inr ⟨(Option.some.inj h).symm, h7, ?_⟩)
    exact Bool.eq_false_iff.mpr h2

theorem foldl_fromParamStep_good (segs : List String) :
    ∀ buf out, (∀ s ∈ buf, goodSeg s) →
      segs.foldl fromParamStep (some buf) = some out → ∀ s ∈ out, goodSeg s := by
  induction segs with
  | nil =>
    intro buf out hb h
    rw [List.foldl_nil] at h
    cases h
    exact hb
  | cons seg rest ih =>
    intro buf out hb h
    rw [List.foldl_cons] at h
    cases hstep : fromParamStep (some buf) seg with
    | none =>
      rw [hstep, foldl_fromParamStep_none] at h
      cases h
    | some buf2 =>
      rw [hstep] at h
      refine ih buf2 out ?_ h
      rcases fromParamStep_some_cases buf buf2 seg hstep with h' | h' | ⟨h', hg⟩
      · subst h'
        exact fun s hs => hb s (List.dropLast_subset _ hs)
      · subst h'
        exact hb
      · subst h'
        intro s hs
        rcases List.mem_append.mp hs with hs | hs
        · exact hb s hs
        · rcases List.mem_singleton.mp hs with rfl
          exact hg

theorem from_param_good (s : String) (out : List String)
    (h : from_param s = some out) : ∀ seg ∈ out, goodSeg seg :=
  foldl_fromParamStep_good _ [] out (by simp) h

end RepoManager

namespace RepoManager

/-! ## Claim C1 and C2: the build-repo file handler -/

/-- C1 (counterexample): the claim states that a `..` path component in the
tail of a `/build-repo/{id}/{tail}` request causes the request to be
rejected.  It does not: `PathBuf::from_param` neutralises `..` by popping
the previously accepted component, so a tail of `"../../etc/passwd"` is
accepted and resolved (inside the staging area) rather than rejected. -/
theorem dotdot_tail_not_rejected :
    handle_build_repo ["srv", "build-repos"] ["srv", "repo"] "b1" "../../etc/passwd"
        (fun _ => true) =
      some ["srv", "build-repos", "b1", "etc", "passwd"] := by
  decide

/-- C1 (amended): every file the handler serves lies inside the staging base
path (under the sanitised build id) or, on fallback, inside the production
repository root; the sanitised components are never empty, never `..` and
never start with `.`, so neither parent traversal nor absolute components can
escape either root. -/
theorem handle_build_repo_stays_inside (build_repo_base_path repo_path : List String)
    (id tail : String) (openable : List String → Bool) (p : List String)
    (h : handle_build_repo build_repo_base_path repo_path id tail openable = some p) :
    (∃ rest, p = build_repo_base_path ++ rest ∧ ∀ s ∈ rest, goodSeg s) ∨
    (∃ rest, p = repo_path ++ rest ∧ ∀ s ∈ rest, goodSeg s) := by
  cases hrel : from_param (stripLeadingSlashes tail) with
  | none =>
    simp only [handle_build_repo, hrel] at h
    cases h
  | some relpath =>
    cases hid : from_param id with
    | none =>
      simp only [handle_build_repo, hrel, hid] at h
      cases h
    | some safe_id =>
      simp only [handle_build_repo, hrel, hid] at h
      by_cases hfs : openable (build_repo_base_path ++ safe_id ++ relpath) = true
      · rw [if_pos hfs] at h
        left
        refine ⟨safe_id ++ relpath, ?_, ?_⟩
        · rw [← Option.some.inj h, List.append_assoc]
        · intro s hs
          rcases List.mem_append.mp hs with hs | hs
          · exact from_param_good id safe_id hid s hs
          · exact from_param_good _ relpath hrel s hs
      · rw [if_neg hfs] at h
        by_cases hfb : openable (repo_path ++ relpath) = true
        · rw [if_pos hfb] at h
          right
          exact ⟨relpath, (Option.some.inj h).symm, from_param_good _ relpath hrel⟩
        · rw [if_neg hfb] at h
          cases h

/-- C1 witness: a concrete request resolved by the amended theorem. -/
theorem handle_build_repo_stays_inside_witness :
    ((∃ rest, (["srv", "build-repos", "b1", "repo", "summary"] : List String) =
        ["srv", "build-repos"] ++ rest ∧ ∀ s ∈ rest, goodSeg s) ∨
     (∃ rest, (["srv", "build-repos", "b1", "repo", "summary"] : List String) =
        ["srv", "repo"] ++ rest ∧ ∀ s ∈ rest, goodSeg s)) :=
  handle_build_repo_stays_inside ["srv", "build-repos"] ["srv", "repo"] "b1"
    "repo/summary" (fun _ => true) ["srv", "build-repos", "b1", "repo", "summary"]
    (by decide)

/-- C2: with both route parameters sanitised successfully, the handler serves
the build-scoped file whenever it can be opened, and serves the production
fallback path only when opening the build-scoped file fails. -/
theorem handle_build_repo_fallback_only_when_missing
    (build_repo_base_path repo_path : List String) (id tail : String)
    (openable : List String → Bool) (relpath safe_id : List String)
    (hrel : from_param (stripLeadingSlashes tail) = some relpath)
    (hid : from_param id = some safe_id) :
    (openable (build_repo_base_path ++ safe_id ++ relpath) = true →
       handle_build_repo build_repo_base_path repo_path id tail openable =
         some (build_repo_base_path ++ safe_id ++ relpath)) ∧
    (∀ p, handle_build_repo build_repo_base_path repo_path id tail openable = some p →
       p ≠ build_repo_base_path ++ safe_id ++ relpath →
       openable (build_repo_base_path ++ safe_id ++ relpath) = false ∧
         p = repo_path ++ relpath) := by
  simp only [handle_build_repo, hrel, hid]
  constructor
  · intro hfs
    rw [if_pos hfs]
  · intro p hp hne
    by_cases hfs : openable (build_repo_base_path ++ safe_id ++ relpath) = true
    · rw [if_pos hfs] at hp
      exact absurd (Option.some.inj hp).symm hne
    · rw [if_neg hfs] at hp
      refine ⟨Bool.eq_false_iff.mpr hfs, ?_⟩
      by_cases hfb : openable (repo_path ++ relpath) = true
      · rw [if_pos hfb] at hp
        exact (Option.some.inj hp).symm
      · rw [if_neg hfb] at hp
        cases hp

/-- C2 witness: the build-scoped file exists and is the one served. -/
theorem handle_build_repo_fallback_only_when_missing_witness :
    handle_build_repo ["base"] ["root"] "1" "f" (fun _ => true) =
      some (["base"] ++ ["1"] ++ ["f"]) :=
  (handle_build_repo_fallback_only_when_missing ["base"] ["root"] "1" "f"
    (fun _ => true) ["f"] ["1"] (by decide) (by decide)).1 rfl

end RepoManager

namespace RepoManager

/-! ## Token claim sets (src/app.rs `Claims`, src/bin/gentoken.rs `Claims`)

The JSON payload of a token is modelled as a list of named fields; decoding
looks fields up by name, as serde does, so field order is irrelevant to
decodability.  The Rust field `prefix` is spelled `prefix_` here because
`prefix` is a Lean keyword. -/

/-- A JSON value as far as the claim structures need: strings, integers,
string arrays and null. -/
inductive JVal
  | str (v : String)
  | int (v : Int)
  | arr (v : List String)
  | nul
deriving DecidableEq

/-- Serialisation of an `Option<Vec<String>>` field. -/
def optListField : Option (List String) → JVal
  | none => JVal.nul
  | some l => JVal.arr l

/-- A signed JWT, abstractly: the header's algorithm, the claim payload, and
the key the HMAC signature was produced with.  Verification of the signature
against a key is modelled as equality of the keys. -/
structure Jwt where
  alg : String
  payload : List (String × JVal)
  key : List Nat
deriving DecidableEq

/-- `jwt::encode(&Header::default(), claims, secret)`: `Header::default()`
carries algorithm HS256. -/
def jwtEncode (payload : List (String × JVal)) (key : List Nat) : Jwt :=
  ⟨"HS256", payload, key⟩

/-- Symmetric JWT verification: the token's HMAC must have been produced with
the presented key and the default HS256 algorithm. -/
def jwtDecode (t : Jwt) (key : List Nat) : Option (List (String × JVal)) :=
  if t.alg = "HS256" ∧ t.key = key then some t.payload else none

namespace App

/-- The service's claim structure (src/app.rs lines 14-21). -/
structure Claims where
  sub : String
  scope : List String
  prefix_ : Option (List String)
  name : String
  exp : Int
deriving DecidableEq

/-- The service `Config` (src/app.rs lines 23-34); paths are kept as the
environment strings they are built from. -/
structure Config where
  repo_path : String
  build_repo_base_path : String
  base_url : String
  collection_id : Option String
  gpg_homedir : Option String
  build_gpg_key : Option String
  build_gpg_key_content : Option String
  main_gpg_key : Option String
  main_gpg_key_content : Option String
  secret : List Nat
deriving DecidableEq

/-- Serde serialisation of the service's `Claims`, in struct field order. -/
def Claims.fields (c : Claims) : List (String × JVal) :=
  [("sub", JVal.str c.sub), ("scope", JVal.arr c.scope),
   ("prefix", optListField c.prefix_), ("name", JVal.str c.name),
   ("exp", JVal.int c.exp)]

/-- Serde deserialisation of a claim payload into the service's `Claims`:
name-based field lookup, order independent. -/
def decodeClaims (fs : List (String × JVal)) : Option Claims :=
  match fs.lookup "sub", fs.lookup "scope", fs.lookup "prefix",
      fs.lookup "name", fs.lookup "exp" with
  | some (JVal.str sub), some (JVal.arr scope), some pv, some (JVal.str name),
      some (JVal.int exp) =>
    match pv with
    | JVal.nul => some ⟨sub, scope, none, name, exp⟩
    | JVal.arr l => some ⟨sub, scope, some l, name, exp⟩
    | _ => none
  | _, _, _, _, _ => none

end App

namespace Gentoken

/-- The offline tool's claim structure (src/bin/gentoken.rs lines 19-26);
same fields as the service's, declared in a different order. -/
structure Claims where
  sub : String
  scope : List String
  name : String
  prefix_ : Option (List String)
  exp : Int
deriving DecidableEq

/-- Serde serialisation of the tool's `Claims`, in struct field order. -/
def Claims.fields (c : Claims) : List (String × JVal) :=
  [("sub", JVal.str c.sub), ("scope", JVal.arr c.scope),
   ("name", JVal.str c.name), ("prefix", optListField c.prefix_),
   ("exp", JVal.int c.exp)]

/-- The gentoken command-line state after argument parsing, with the
initial values from src/bin/gentoken.rs lines 40-48 as defaults.
`secretFile` holds the contents read from `--secret-file` when that option
was given and readable. -/
structure Args where
  verbose : Bool := false
  base64flag : Bool := false
  name : String := "default"
  sub : String := "build"
  secretOpt : Option String := none
  secretFile : Option String := none
  duration : Int := 365 * 86400
  scope : List String := []
  prefix_ : List String := []

/-- Secret resolution in gentoken's `main` (lines 93-112): `--secret` wins
over `--secret-file`; with neither the tool exits; the contents are trimmed
and base64-decoded when `--base64` was given, used as raw bytes otherwise. -/
def secretBytes (a : Args) : Option (List Nat) :=
  let toBytes := fun (s : String) =>
    if a.base64flag then base64decode (strTrim s) else some (strBytes (strTrim s))
  match a.secretOpt, a.secretFile with
  | some s, _ => toBytes s
  | none, some contents => toBytes contents
  | none, none => none

/-- gentoken `main` after argument parsing: apply the scope and prefix
defaults (lines 85-91), resolve the secret, build the claims (lines 114-120,
with `exp` hard-coded to now plus `Duration::days(365).num_seconds()`), and
sign them with the default JWT header (line 126).  Returns the claims and
the emitted token, or `none` when the tool exits without printing one. -/
def run (a : Args) (now : Int) : Option (Claims × Jwt) :=
  let scope := if a.scope = [] then ["build", "upload", "publish", "jobs"] else a.scope
  let prefixes := if a.prefix_ = [] then [""] else a.prefix_
  match secretBytes a with
  | none => none
  | some key =>
    let claims : Claims :=
      { sub := a.sub, scope := scope, name := a.name,
        prefix_ := some prefixes, exp := now + 365 * 86400 }
    some (claims, jwtEncode (Claims.fields claims) key)

end Gentoken

/-- Field-for-field conversion between the two claim structures. -/
def toApp (g : Gentoken.Claims) : App.Claims :=
  { sub := g.sub, scope := g.scope, prefix_ := g.prefix_,
    name := g.name, exp := g.exp }

/-- Modelled from the spec (the token validation module `tokens.rs` is not
under src/): the service verifies a presented token's signature against the
shared secret it loaded from `SECRET` (base64-decoded, src/main.rs line 141)
and parses the claim set `{sub, scope, prefix, name, exp}`.  The expiry
check is separate and not part of structural decoding. -/
def serviceDecode (t : Jwt) (secret_base64 : String) : Option App.Claims :=
  match base64decode secret_base64 with
  | none => none
  | some key =>
    match jwtDecode t key with
    | none => none
    | some payload => App.decodeClaims payload

/-- Modelled from the spec (§4.1, `tokens.rs` is not under src/): a
reference name is permitted when some held prefix is a literal prefix of
it. -/
def prefixPermits (prefixes : List String) (n : String) : Bool :=
  prefixes.any (fun p => p.data.isPrefixOf n.data)

end RepoManager

namespace RepoManager

/-! ## Claims C6, C9, C10: gentoken and claim-structure interoperability -/

/-- Concrete gentoken invocation used by the witnesses: `--base64` with
secret "AAAA" and every other argument left at its default. -/
def exampleArgs : Gentoken.Args := { base64flag := true, secretOpt := some "AAAA" }

/-- The claims `exampleArgs` produces at time 0. -/
def exampleClaims : Gentoken.Claims :=
  { sub := "build", scope := ["build", "upload", "publish", "jobs"],
    name := "default", prefix_ := some [""], exp := 31536000 }

/-- The token `exampleArgs` emits at time 0. -/
def exampleToken : Jwt :=
  jwtEncode (Gentoken.Claims.fields exampleClaims) [0, 0, 0]

theorem decodeClaims_fields (g : Gentoken.Claims) :
    App.decodeClaims (Gentoken.Claims.fields g) = some (toApp g) := by
  rcases g with ⟨sub, scope, name, pre, exp⟩
  cases pre <;> rfl

/-- C6: the two `Claims` structures carry exactly the same fields — the
service's decoder reconstructs, field for field, the claims the tool
serialises, and the two serialisations are permutations of each other — and
a token the tool signs (default JWT header, HMAC) with the base64-decoded
shared secret is decoded by the service loading the same secret string. -/
theorem claims_structures_interoperate :
    (∀ g : Gentoken.Claims,
        App.decodeClaims (Gentoken.Claims.fields g) = some (toApp g)) ∧
    (∀ g : Gentoken.Claims,
        (Gentoken.Claims.fields g).Perm (App.Claims.fields (toApp g))) ∧
    (∀ (a : Gentoken.Args) (now : Int) (c : Gentoken.Claims) (t : Jwt) (s : String),
        Gentoken.run a now = some (c, t) → a.base64flag = true →
        a.secretOpt = some s → strTrim s = s →
        serviceDecode t s = some (toApp c)) := by
  refine ⟨decodeClaims_fields, ?_, ?_⟩
  · intro g
    rcases g with ⟨sub, scope, name, pre, exp⟩
    exact List.Perm.cons _ (List.Perm.cons _ (List.Perm.swap _ _ _))
  · intro a now c t s hrun hb64 hsec htrim
    have hsb : Gentoken.secretBytes a = base64decode s := by
      simp [Gentoken.secretBytes, hsec, hb64, htrim]
    cases hkey : base64decode s with
    | none =>
      simp only [Gentoken.run, hsb, hkey] at hrun
      cases hrun
    | some key =>
      simp only [Gentoken.run, hsb, hkey, Option.some.injEq, Prod.mk.injEq] at hrun
      obtain ⟨hc, ht⟩ := hrun
      subst hc
      subst ht
      simp only [serviceDecode, hkey, jwtEncode, jwtDecode, if_pos (And.intro rfl rfl)]
      exact decodeClaims_fields _

/-- C6 witness: a concretely generated token is decoded by the service. -/
theorem claims_structures_interoperate_witness :
    serviceDecode exampleToken "AAAA" = some (toApp exampleClaims) :=
  claims_structures_interoperate.2.2 exampleArgs 0 exampleClaims exampleToken "AAAA"
    (by decide) rfl rfl (by decide)

/-- C9: whatever arguments gentoken is invoked with, the emitted `exp` claim
is the issuing time plus exactly 365 days in seconds, and the `--duration`
argument has no influence on the tool's output at all. -/
theorem gentoken_exp_ignores_duration (a : Gentoken.Args) (now : Int)
    (c : Gentoken.Claims) (t : Jwt) (h : Gentoken.run a now = some (c, t)) :
    c.exp = now + 365 * 86400 ∧
      ∀ d, Gentoken.run { a with duration := d } now = Gentoken.run a now := by
  constructor
  · cases hkey : Gentoken.secretBytes a with
    | none =>
      simp only [Gentoken.run, hkey] at h
      cases h
    | some key =>
      simp only [Gentoken.run, hkey, Option.some.injEq, Prod.mk.injEq] at h
      rw [← h.1]
  · intro d
    rfl

/-- C9 witness. -/
theorem gentoken_exp_ignores_duration_witness :
    exampleClaims.exp = 0 + 365 * 86400 ∧
      ∀ d, Gentoken.run { exampleArgs with duration := d } 0 =
        Gentoken.run exampleArgs 0 :=
  gentoken_exp_ignores_duration exampleArgs 0 exampleClaims exampleToken (by decide)

/-- C10: gentoken always emits `prefix = Some(non-empty list)`, in
particular `Some([""])` when no `--prefix` was supplied, and the empty
string prefix permits every reference name under the starts-with rule. -/
theorem gentoken_prefix_always_some (a : Gentoken.Args) (now : Int)
    (c : Gentoken.Claims) (t : Jwt) (h : Gentoken.run a now = some (c, t)) :
    (∃ l, c.prefix_ = some l ∧ l ≠ []) ∧
    (a.prefix_ = [] → c.prefix_ = some [""]) ∧
    (∀ n, prefixPermits [""] n = true) := by
  have hpre : c.prefix_ = some (if a.prefix_ = [] then [""] else a.prefix_) := by
    cases hkey : Gentoken.secretBytes a with
    | none =>
      simp only [Gentoken.run, hkey] at h
      cases h
    | some key =>
      simp only [Gentoken.run, hkey, Option.some.injEq, Prod.mk.injEq] at h
      rw [← h.1]
  refine ⟨⟨_, hpre, ?_⟩, fun hp => by rw [hpre, if_pos hp], fun n => ?_⟩
  · split_ifs with hp
    · simp
    · exact hp
  · rcases hnd : n.data with _ | ⟨ch, cs⟩ <;>
      simp [prefixPermits, hnd, List.isPrefixOf]

/-- C10 witness. -/
theorem gentoken_prefix_always_some_witness :
    ((∃ l, exampleClaims.prefix_ = some l ∧ l ≠ []) ∧
     (exampleArgs.prefix_ = [] → exampleClaims.prefix_ = some [""]) ∧
     (∀ n, prefixPermits [""] n = true)) :=
  gentoken_prefix_always_some exampleArgs 0 exampleClaims exampleToken (by decide)

end RepoManager

namespace RepoManager

/-! ## Claim C5: the signal handler (src/main.rs `HandleSignals`) -/

/-- Job states from the spec's state machine (§4.4). -/
inductive JobStatus
  | new
  | started
  | ended
deriving DecidableEq

/-- Modelled from the spec (the job-queue module `jobs.rs` is not under
src/): per §4.5, the `StopJobQueue` message completes only once no job is
still `Started` — the call returns only after all in-flight jobs ended. -/
def stopJobQueueDone (jobs : List JobStatus) : Bool :=
  jobs.all (fun j => match j with | JobStatus.started => false | _ => true)

/-- The actix signal kinds delivered to `HandleSignals`. -/
inductive SignalType
  | hup
  | int
  | term
  | quit
  | child
deriving DecidableEq

/-- The shutdown effects the handler can chain. -/
inductive ShutdownAction
  | stopHttpServer (graceful : Bool)
  | stopJobQueueAwait
  | stopSystemAfterDelay
deriving DecidableEq

/-- The `(stop, graceful)` pair computed by the match in
`HandleSignals::handle` (src/main.rs lines 62-76). -/
def signal_stop_graceful : SignalType → Bool × Bool
  | SignalType.int => (true, false)
  | SignalType.term => (true, true)
  | SignalType.quit => (true, false)
  | _ => (false, false)

/-- `HandleSignals::handle` (src/main.rs lines 61-98) as the ordered list of
effects of the future chain it spawns: `StopServer` is sent first, its
completion triggers `StopJobQueue`, and only that message's completion
schedules `System::current().stop()` (after a 300 ms delay). -/
def handle_signal (s : SignalType) : List ShutdownAction :=
  let p := signal_stop_graceful s
  if p.1 then
    [ShutdownAction.stopHttpServer p.2, ShutdownAction.stopJobQueueAwait,
     ShutdownAction.stopSystemAfterDelay]
  else []

/-- C5: on SIGINT, SIGTERM and SIGQUIT the handler always performs exactly
the sequence stop-HTTP-server, await-StopJobQueue, stop-system, in that
order; and (spec-modelled) `StopJobQueue` is complete only when no job is
left `Started`. -/
theorem shutdown_sequence_order (s : SignalType)
    (h : s = SignalType.int ∨ s = SignalType.term ∨ s = SignalType.quit) :
    (∃ g, handle_signal s =
       [ShutdownAction.stopHttpServer g, ShutdownAction.stopJobQueueAwait,
        ShutdownAction.stopSystemAfterDelay]) ∧
    (∀ jobs : List JobStatus, stopJobQueueDone jobs = true →
       JobStatus.started ∉ jobs) := by
  constructor
  · rcases h with rfl | rfl | rfl
    · exact ⟨false, rfl⟩
    · exact ⟨true, rfl⟩
    · exact ⟨false, rfl⟩
  · intro jobs hall hmem
    have := List.all_eq_true.mp hall _ hmem
    simp at this

/-- C5 witness: SIGINT. -/
theorem shutdown_sequence_order_witness :
    ((∃ g, handle_signal SignalType.int =
       [ShutdownAction.stopHttpServer g, ShutdownAction.stopJobQueueAwait,
        ShutdownAction.stopSystemAfterDelay]) ∧
     (∀ jobs : List JobStatus, stopJobQueueDone jobs = true →
       JobStatus.started ∉ jobs)) :=
  shutdown_sequence_order SignalType.int (Or.inl rfl)

end RepoManager

namespace RepoManager

/-! ## Startup model (src/main.rs `main` and `load_gpg_key`)

`main` is straight-line code whose only branching is panicking on a failed
`expect`/`unwrap`; it is embedded as the trace of steps the process performs,
ending early with a `panicked` step when one fails.  `StartupWorld` carries
the environment variables `main` reads and the outcomes of the effectful
steps (the `gpg2` oracle, database connection, migrations, pool creation,
`cleanup_started_jobs`, socket bind). -/

/-- Observable startup events of `main`, in source order. -/
inductive StartupStep
  | loadDotenv
  | readEnv (name : String)
  | decodeSecret
  | loadBuildGpgKey
  | loadMainGpgKey
  | connectDb
  | runMigrations
  | buildPool
  | cleanupStartedJobs
  | startDbExecutor
  | startJobExecutor
  | bindHttpServer
  | startHttpServer
  | subscribeSignalHandler
  | runSystem
  | panicked (msg : String)
deriving DecidableEq

/-- The environment and effect outcomes `main` runs against.  `gpg2Export`
maps an optional homedir and a key id to the exported key bytes, `none`
meaning `gpg2 --export` failed; `cleanupOk` is whether
`cleanup_started_jobs` (defined in the job module, outside src/) returned
`Ok`. -/
structure StartupWorld where
  database_url : Option String
  repo_path : Option String
  build_repo_base_path : Option String
  secret : Option String
  bind_to : Option String
  base_url : Option String
  collection_id : Option String
  gpg_homedir : Option String
  build_gpg_key : Option String
  main_gpg_key : Option String
  gpg2Export : Option String → String → Option (List Nat)
  dbConnectOk : Bool
  migrationsOk : Bool
  poolOk : Bool
  cleanupOk : Bool
  bindOk : Bool

/-- `load_gpg_key` (src/main.rs lines 101-121): no configured key loads no
content (`Ok(None)`); a configured key is exported through `gpg2` and
base64-encoded, and a failed export is an error (the outer `none`). -/
def load_gpg_key (gpg2 : Option String → String → Option (List Nat))
    (maybe_gpg_key maybe_gpg_homedir : Option String) : Option (Option String) :=
  match maybe_gpg_key with
  | some gpg_key =>
    match gpg2 maybe_gpg_homedir gpg_key with
    | some out => some (some (base64encode out))
    | none => none
  | none => some none

/-- The fallible steps of `main` in source order, each with the step
performed when it succeeds and the panic message of its
`expect`/`unwrap` when it fails; infallible steps carry guard `true`. -/
def startupChecks (w : StartupWorld) : List (Bool × StartupStep × String) :=
  [ (w.database_url.isSome, StartupStep.readEnv "DATABASE_URL", "DATABASE_URL must be set"),
    (w.repo_path.isSome, StartupStep.readEnv "REPO_PATH", "REPO_PATH must be set"),
    (w.build_repo_base_path.isSome, StartupStep.readEnv "BUILD_REPO_BASE_PATH",
      "BUILD_REPO_BASE_PATH must be set"),
    (w.secret.isSome, StartupStep.readEnv "SECRET", "SECRET must be set"),
    ((w.secret.bind base64decode).isSome, StartupStep.decodeSecret,
      "called Option.unwrap on a None value"),
    ((load_gpg_key w.gpg2Export w.build_gpg_key w.gpg_homedir).isSome,
      StartupStep.loadBuildGpgKey, "Failed to load build gpg key"),
    ((load_gpg_key w.gpg2Export w.main_gpg_key w.gpg_homedir).isSome,
      StartupStep.loadMainGpgKey, "Failed to load main gpg key"),
    (w.dbConnectOk, StartupStep.connectDb, "connection failed"),
    (w.migrationsOk, StartupStep.runMigrations, "running migrations failed"),
    (w.poolOk, StartupStep.buildPool, "Failed to create pool."),
    (w.cleanupOk, StartupStep.cleanupStartedJobs, "Failed to cleanup started jobs"),
    (true, StartupStep.startDbExecutor, ""),
    (true, StartupStep.startJobExecutor, ""),
    (w.bindOk, StartupStep.bindHttpServer, "bind failed"),
    (true, StartupStep.startHttpServer, ""),
    (true, StartupStep.subscribeSignalHandler, ""),
    (true, StartupStep.runSystem, "") ]

/-- Run a check chain: each successful check contributes its step, the
first failing one ends the process with its panic. -/
def runChain : List (Bool × StartupStep × String) → List StartupStep
  | [] => []
  | (ok, step, err) :: rest =>
    if ok then step :: runChain rest else [StartupStep.panicked err]

/-- The event trace of `main` (src/main.rs lines 125-201). -/
def startupTrace (w : StartupWorld) : List StartupStep :=
  StartupStep.loadDotenv :: runChain (startupChecks w)

/-- The events of a trace that happen strictly before the first occurrence
of `t`. -/
def stepsBefore (t : StartupStep) : List StartupStep → List StartupStep
  | [] => []
  | s :: rest => if s = t then [] else s :: stepsBefore t rest

/-- The configuration-building portion of `main` (src/main.rs lines
132-159): required variables panic when missing (`none`), `BIND_TO` and
`BASE_URL` default, the optional values pass through, and the two signing
keys load through `load_gpg_key`.  Returns the `Config` together with the
bind address, `none` standing for a startup panic. -/
def run_main_config (w : StartupWorld) : Option (App.Config × String) :=
  match w.database_url with
  | none => none
  | some _ =>
    match w.repo_path with
    | none => none
    | some repo_path =>
      match w.build_repo_base_path with
      | none => none
      | some build_repo_base_path =>
        match w.secret with
        | none => none
        | some secret_base64 =>
          match base64decode secret_base64 with
          | none => none
          | some secret =>
            match load_gpg_key w.gpg2Export w.build_gpg_key w.gpg_homedir with
            | none => none
            | some build_gpg_key_content =>
              match load_gpg_key w.gpg2Export w.main_gpg_key w.gpg_homedir with
              | none => none
              | some main_gpg_key_content =>
                some ({ repo_path := repo_path,
                        build_repo_base_path := build_repo_base_path,
                        base_url := w.base_url.getD "http://127.0.0.1:8080",
                        collection_id := w.collection_id,
                        gpg_homedir := w.gpg_homedir,
                        build_gpg_key := w.build_gpg_key,
                        build_gpg_key_content := build_gpg_key_content,
                        main_gpg_key := w.main_gpg_key,
                        main_gpg_key_content := main_gpg_key_content,
                        secret := secret },
                      w.bind_to.getD "127.0.0.1:8080")

/-- A world in which every startup step succeeds. -/
def worldOk : StartupWorld :=
  { database_url := some "postgres://repo", repo_path := some "/srv/repo",
    build_repo_base_path := some "/srv/build-repos", secret := some "AAAA",
    bind_to := none, base_url := none, collection_id := none,
    gpg_homedir := none, build_gpg_key := none, main_gpg_key := none,
    gpg2Export := fun _ _ => none, dbConnectOk := true, migrationsOk := true,
    poolOk := true, cleanupOk := true, bindOk := true }

/-- `worldOk` with a failing `cleanup_started_jobs`. -/
def worldCleanupFails : StartupWorld := { worldOk with cleanupOk := false }

/-- `worldOk` with `DATABASE_URL` missing. -/
def worldNoDbUrl : StartupWorld := { worldOk with database_url := none }

/-- `worldOk` with a configured build key whose `gpg2 --export` fails. -/
def worldGpgFails : StartupWorld := { worldOk with build_gpg_key := some "KEY" }

/-- The configuration `worldOk` produces. -/
def configOk : App.Config :=
  { repo_path := "/srv/repo", build_repo_base_path := "/srv/build-repos",
    base_url := "http://127.0.0.1:8080", collection_id := none,
    gpg_homedir := none, build_gpg_key := none, build_gpg_key_content := none,
    main_gpg_key := none, main_gpg_key_content := none, secret := [0, 0, 0] }

end RepoManager

namespace RepoManager

/-! ## Claims C3 and C4: startup ordering and fatal cleanup failure -/

/-- C3: whenever startup reaches starting the job executor, binding the HTTP
server or starting it, the orphaned-job cleanup has already run to
completion strictly before each of those events. -/
theorem cleanup_runs_before_serving (w : StartupWorld)
    (hj : StartupStep.startJobExecutor ∈ startupTrace w)
    (hb : StartupStep.bindHttpServer ∈ startupTrace w)
    (hs : StartupStep.startHttpServer ∈ startupTrace w) :
    StartupStep.cleanupStartedJobs ∈
        stepsBefore StartupStep.startJobExecutor (startupTrace w) ∧
    StartupStep.cleanupStartedJobs ∈
        stepsBefore StartupStep.bindHttpServer (startupTrace w) ∧
    StartupStep.cleanupStartedJobs ∈
        stepsBefore StartupStep.startHttpServer (startupTrace w) := by
  cases h1 : w.database_url.isSome
  · simp [startupTrace, startupChecks, runChain, h1] at hj
  cases h2 : w.repo_path.isSome
  · simp [startupTrace, startupChecks, runChain, h1, h2] at hj
  cases h3 : w.build_repo_base_path.isSome
  · simp [startupTrace, startupChecks, runChain, h1, h2, h3] at hj
  cases h4 : w.secret.isSome
  · simp [startupTrace, startupChecks, runChain, h1, h2, h3, h4] at hj
  cases h5 : (w.secret.bind base64decode).isSome
  · simp [startupTrace, startupChecks, runChain, h1, h2, h3, h4, h5] at hj
  cases h6 : (load_gpg_key w.gpg2Export w.build_gpg_key w.gpg_homedir).isSome
  · simp [startupTrace, startupChecks, runChain, h1, h2, h3, h4, h5, h6] at hj
  cases h7 : (load_gpg_key w.gpg2Export w.main_gpg_key w.gpg_homedir).isSome
  · simp [startupTrace, startupChecks, runChain, h1, h2, h3, h4, h5, h6, h7] at hj
  cases h8 : w.dbConnectOk
  · simp [startupTrace, startupChecks, runChain, h1, h2, h3, h4, h5, h6, h7, h8] at hj
  cases h9 : w.migrationsOk
  · simp [startupTrace, startupChecks, runChain, h1, h2, h3, h4, h5, h6, h7, h8,
      h9] at hj
  cases h10 : w.poolOk
  · simp [startupTrace, startupChecks, runChain, h1, h2, h3, h4, h5, h6, h7, h8,
      h9, h10] at hj
  cases h11 : w.cleanupOk
  · simp [startupTrace, startupChecks, runChain, h1, h2, h3, h4, h5, h6, h7, h8,
      h9, h10, h11] at hj
  cases h12 : w.bindOk
  · simp [startupTrace, startupChecks, runChain, h1, h2, h3, h4, h5, h6, h7, h8,
      h9, h10, h11, h12] at hb
  simp [startupTrace, startupChecks, runChain, stepsBefore, h1, h2, h3, h4, h5,
    h6, h7, h8, h9, h10, h11, h12]

/-- C3 witness: the fully successful startup. -/
theorem cleanup_runs_before_serving_witness :
    (StartupStep.cleanupStartedJobs ∈
        stepsBefore StartupStep.startJobExecutor (startupTrace worldOk) ∧
     StartupStep.cleanupStartedJobs ∈
        stepsBefore StartupStep.bindHttpServer (startupTrace worldOk) ∧
     StartupStep.cleanupStartedJobs ∈
        stepsBefore StartupStep.startHttpServer (startupTrace worldOk)) :=
  cleanup_runs_before_serving worldOk (by decide) (by decide) (by decide)

/-- C4: when `cleanup_started_jobs` returns an error, startup panics: the
trace contains a panic and never reaches binding or starting the HTTP
server. -/
theorem cleanup_failure_aborts_startup (w : StartupWorld)
    (h : w.cleanupOk = false) :
    StartupStep.bindHttpServer ∉ startupTrace w ∧
    StartupStep.startHttpServer ∉ startupTrace w ∧
    ∃ e, StartupStep.panicked e ∈ startupTrace w := by
  cases h1 : w.database_url.isSome
  · refine ⟨?_, ?_, "DATABASE_URL must be set", ?_⟩ <;>
      simp [startupTrace, startupChecks, runChain, h1]
  cases h2 : w.repo_path.isSome
  · refine ⟨?_, ?_, "REPO_PATH must be set", ?_⟩ <;>
      simp [startupTrace, startupChecks, runChain, h1, h2]
  cases h3 : w.build_repo_base_path.isSome
  · refine ⟨?_, ?_, "BUILD_REPO_BASE_PATH must be set", ?_⟩ <;>
      simp [startupTrace, startupChecks, runChain, h1, h2, h3]
  cases h4 : w.secret.isSome
  · refine ⟨?_, ?_, "SECRET must be set", ?_⟩ <;>
      simp [startupTrace, startupChecks, runChain, h1, h2, h3, h4]
  cases h5 : (w.secret.bind base64decode).isSome
  · refine ⟨?_, ?_, "called Option.unwrap on a None value", ?_⟩ <;>
      simp [startupTrace, startupChecks, runChain, h1, h2, h3, h4, h5]
  cases h6 : (load_gpg_key w.gpg2Export w.build_gpg_key w.gpg_homedir).isSome
  · refine ⟨?_, ?_, "Failed to load build gpg key", ?_⟩ <;>
      simp [startupTrace, startupChecks, runChain, h1, h2, h3, h4, h5, h6]
  cases h7 : (load_gpg_key w.gpg2Export w.main_gpg_key w.gpg_homedir).isSome
  · refine ⟨?_, ?_, "Failed to load main gpg key", ?_⟩ <;>
      simp [startupTrace, startupChecks, runChain, h1, h2, h3, h4, h5, h6, h7]
  cases h8 : w.dbConnectOk
  · refine ⟨?_, ?_, "connection failed", ?_⟩ <;>
      simp [startupTrace, startupChecks, runChain, h1, h2, h3, h4, h5, h6, h7, h8]
  cases h9 : w.migrationsOk
  · refine ⟨?_, ?_, "running migrations failed", ?_⟩ <;>
      simp [startupTrace, startupChecks, runChain, h1, h2, h3, h4, h5, h6, h7, h8,
        h9]
  cases h10 : w.poolOk
  · refine ⟨?_, ?_, "Failed to create pool.", ?_⟩ <;>
      simp [startupTrace, startupChecks, runChain, h1, h2, h3, h4, h5, h6, h7, h8,
        h9, h10]
  refine ⟨?_, ?_, "Failed to cleanup started jobs", ?_⟩ <;>
    simp [startupTrace, startupChecks, runChain, h1, h2, h3, h4, h5, h6, h7, h8,
      h9, h10, h]

/-- C4 witness: a world whose only failure is `cleanup_started_jobs`. -/
theorem cleanup_failure_aborts_startup_witness :
    (StartupStep.bindHttpServer ∉ startupTrace worldCleanupFails ∧
     StartupStep.startHttpServer ∉ startupTrace worldCleanupFails ∧
     ∃ e, StartupStep.panicked e ∈ startupTrace worldCleanupFails) :=
  cleanup_failure_aborts_startup worldCleanupFails rfl

end RepoManager

namespace RepoManager

/-! ## Claim C7: configuration surface of `main` -/

/-- C7: startup requires DATABASE_URL, REPO_PATH, BUILD_REPO_BASE_PATH and
SECRET (missing any of them aborts); BIND_TO and BASE_URL default; the
optional values pass through; an absent signing key yields no key content,
while a configured key whose `gpg2 --export` fails aborts startup. -/
theorem startup_env_requirements :
    (∀ w : StartupWorld, w.database_url = none → run_main_config w = none) ∧
    (∀ w : StartupWorld, w.repo_path = none → run_main_config w = none) ∧
    (∀ w : StartupWorld, w.build_repo_base_path = none → run_main_config w = none) ∧
    (∀ w : StartupWorld, w.secret = none → run_main_config w = none) ∧
    (∀ (w : StartupWorld) (cfg : App.Config) (bt : String),
        run_main_config w = some (cfg, bt) →
        (w.bind_to = none → bt = "127.0.0.1:8080") ∧
        (w.base_url = none → cfg.base_url = "http://127.0.0.1:8080") ∧
        cfg.collection_id = w.collection_id ∧
        cfg.gpg_homedir = w.gpg_homedir ∧
        (w.build_gpg_key = none → cfg.build_gpg_key_content = none) ∧
        (w.main_gpg_key = none → cfg.main_gpg_key_content = none)) ∧
    (∀ (w : StartupWorld) (k : String), w.build_gpg_key = some k →
        w.gpg2Export w.gpg_homedir k = none → run_main_config w = none) ∧
    (∀ (w : StartupWorld) (k : String), w.main_gpg_key = some k →
        w.gpg2Export w.gpg_homedir k = none → run_main_config w = none) := by
  refine ⟨?_, ?_, ?_, ?_, ?_, ?_, ?_⟩
  · intro w h
    simp [run_main_config, h]
  · intro w h
    cases hdb : w.database_url <;> simp [run_main_config, hdb, h]
  · intro w h
    cases hdb : w.database_url <;> cases hrp : w.repo_path <;>
      simp [run_main_config, hdb, hrp, h]
  · intro w h
    cases hdb : w.database_url <;> cases hrp : w.repo_path <;>
      cases hbp : w.build_repo_base_path <;>
        simp [run_main_config, hdb, hrp, hbp, h]
  · intro w cfg bt h
    rcases hdb : w.database_url with _ | du
    · simp [run_main_config, hdb] at h
    rcases hrp : w.repo_path with _ | rp
    · simp [run_main_config, hdb, hrp] at h
    rcases hbp : w.build_repo_base_path with _ | bp
    · simp [run_main_config, hdb, hrp, hbp] at h
    rcases hsec : w.secret with _ | sb
    · simp [run_main_config, hdb, hrp, hbp, hsec] at h
    rcases hdec : base64decode sb with _ | key
    · simp [run_main_config, hdb, hrp, hbp, hsec, hdec] at h
    rcases hbk : load_gpg_key w.gpg2Export w.build_gpg_key w.gpg_homedir with _ | bkc
    · simp [run_main_config, hdb, hrp, hbp, hsec, hdec, hbk] at h
    rcases hmk : load_gpg_key w.gpg2Export w.main_gpg_key w.gpg_homedir with _ | mkc
    · simp [run_main_config, hdb, hrp, hbp, hsec, hdec, hbk, hmk] at h
    simp only [run_main_config, hdb, hrp, hbp, hsec, hdec, hbk, hmk,
      Option.some.injEq, Prod.mk.injEq] at h
    obtain ⟨hcfg, hbt⟩ := h
    subst hcfg
    subst hbt
    refine ⟨fun hb => by rw [hb]; rfl, fun hu => by simp [hu], rfl, rfl,
      fun hk => ?_, fun hk => ?_⟩
    · rw [hk] at hbk
      simp [load_gpg_key] at hbk
      exact hbk.symm
    · rw [hk] at hmk
      simp [load_gpg_key] at hmk
      exact hmk.symm
  · intro w k hk hexp
    have hload : load_gpg_key w.gpg2Export w.build_gpg_key w.gpg_homedir = none := by
      simp [load_gpg_key, hk, hexp]
    rcases hdb : w.database_url with _ | du
    · simp [run_main_config, hdb]
    rcases hrp : w.repo_path with _ | rp
    · simp [run_main_config, hdb, hrp]
    rcases hbp : w.build_repo_base_path with _ | bp
    · simp [run_main_config, hdb, hrp, hbp]
    rcases hsec : w.secret with _ | sb
    · simp [run_main_config, hdb, hrp, hbp, hsec]
    rcases hdec : base64decode sb with _ | key
    · simp [run_main_config, hdb, hrp, hbp, hsec, hdec]
    simp [run_main_config, hdb, hrp, hbp, hsec, hdec, hload]
  · intro w k hk hexp
    have hload : load_gpg_key w.gpg2Export w.main_gpg_key w.gpg_homedir = none := by
      simp [load_gpg_key, hk, hexp]
    rcases hdb : w.database_url with _ | du
    · simp [run_main_config, hdb]
    rcases hrp : w.repo_path with _ | rp
    · simp [run_main_config, hdb, hrp]
    rcases hbp : w.build_repo_base_path with _ | bp
    · simp [run_main_config, hdb, hrp, hbp]
    rcases hsec : w.secret with _ | sb
    · simp [run_main_config, hdb, hrp, hbp, hsec]
    rcases hdec : base64decode sb with _ | key
    · simp [run_main_config, hdb, hrp, hbp, hsec, hdec]
    rcases hbk : load_gpg_key w.gpg2Export w.build_gpg_key w.gpg_homedir with _ | bkc
    · simp [run_main_config, hdb, hrp, hbp, hsec, hdec, hbk]
    simp [run_main_config, hdb, hrp, hbp, hsec, hdec, hbk, hload]

/-- C7 witness: a missing DATABASE_URL aborts, a failing configured gpg key
aborts, and a successful world exercises the defaults and optional fields. -/
theorem startup_env_requirements_witness :
    (run_main_config worldNoDbUrl = none ∧
     run_main_config worldGpgFails = none ∧
     ((worldOk.bind_to = none → "127.0.0.1:8080" = "127.0.0.1:8080") ∧
      (worldOk.base_url = none → configOk.base_url = "http://127.0.0.1:8080") ∧
      configOk.collection_id = worldOk.collection_id ∧
      configOk.gpg_homedir = worldOk.gpg_homedir ∧
      (worldOk.build_gpg_key = none → configOk.build_gpg_key_content = none) ∧
      (worldOk.main_gpg_key = none → configOk.main_gpg_key_content = none))) :=
  ⟨startup_env_requirements.1 worldNoDbUrl rfl,
   startup_env_requirements.2.2.2.2.2.1 worldGpgFails "KEY" rfl rfl,
   startup_env_requirements.2.2.2.2.1 worldOk configOk "127.0.0.1:8080" (by decide)⟩

end RepoManager

namespace RepoManager

/-! ## Claim C8: every /api/v1 operation sits behind the token middleware -/

/-- HTTP methods used by the application's resources. -/
inductive HttpMethod
  | GET
  | POST
deriving DecidableEq

/-- Middleware registrations of `create_app`; the token-validating
middleware carries the secret it was constructed from
(`TokenParser::new(&config.secret)`). -/
inductive Middleware
  | logger
  | tokenParserWith (secret : List Nat)
deriving DecidableEq

/-- A `.resource(path, ...)` registration: its path pattern and the
(method, api-handler) pairs registered on it. -/
structure Resource where
  path : String
  methods : List (HttpMethod × String)
deriving DecidableEq

/-- A `.scope(path, ...)` registration with its middlewares, resources and
raw handlers. -/
structure AppScope where
  path : String
  middlewares : List Middleware
  resources : List Resource
  handlers : List (String × String)
deriving DecidableEq

/-- The application: top-level middlewares, scopes, and raw handlers. -/
structure AppModel where
  middlewares : List Middleware
  scopes : List AppScope
  handlers : List (String × String)
deriving DecidableEq

/-- The resources registered inside the `/api/v1` scope (src/app.rs lines
77-92). -/
def api_v1_resources : List Resource :=
  [ ⟨"/token_subset", [(HttpMethod.POST, "token_subset")]⟩,
        ⟨"/job/{id}", [(HttpMethod.POST, "get_job")]⟩,
        ⟨"/build", [(HttpMethod.POST, "create_build"), (HttpMethod.GET, "builds")]⟩,
        ⟨"/build/{id}", [(HttpMethod.GET, "get_build")]⟩,
        ⟨"/build/{id}/build_ref", [(HttpMethod.POST, "create_build_ref")]⟩,
        ⟨"/build/{id}/build_ref/{ref_id}", [(HttpMethod.GET, "get_build_ref")]⟩,
        ⟨"/build/{id}/missing_objects", [(HttpMethod.GET, "missing_objects")]⟩,
        ⟨"/build/{id}/upload", [(HttpMethod.POST, "upload")]⟩,
        ⟨"/build/{id}/commit",
          [(HttpMethod.POST, "commit"), (HttpMethod.GET, "get_commit_job")]⟩,
        ⟨"/build/{id}/publish",
          [(HttpMethod.POST, "publish"), (HttpMethod.GET, "get_publish_job")]⟩,
        ⟨"/build/{id}/purge", [(HttpMethod.POST, "purge")]⟩ ]

/-- The `/api/v1` scope of `create_app` (src/app.rs lines 74-93): the
token-parsing middleware built from the shared secret, then every API
resource. -/
def api_v1_scope (secret : List Nat) : AppScope :=
  { path := "/api/v1",
    middlewares := [Middleware.tokenParserWith secret],
    resources := api_v1_resources,
    handlers := [] }

/-- The `/build-repo/{id}` scope (src/app.rs lines 94-96): no middleware,
one raw handler. -/
def build_repo_scope : AppScope :=
  { path := "/build-repo/{id}", middlewares := [], resources := [],
    handlers := [("/", "handle_build_repo")] }

/-- `create_app` (src/app.rs lines 58-98) as a route table. -/
def create_app (secret : List Nat) : AppModel :=
  { middlewares := [Middleware.logger],
    scopes := [api_v1_scope secret, build_repo_scope],
    handlers := [("/repo", "repo_static_files")] }

/-- The API operations enumerated by the claim. -/
def apiHandlers : List String :=
  ["token_subset", "get_job", "create_build", "builds", "get_build",
   "create_build_ref", "get_build_ref", "missing_objects", "upload",
   "commit", "get_commit_job", "publish", "get_publish_job", "purge"]

/-- An api handler is reachable only through a scope that carries the
token-parsing middleware built from `secret`. -/
def handlerProtectedBy (app : AppModel) (secret : List Nat) (h : String) : Prop :=
  ∃ sc ∈ app.scopes, Middleware.tokenParserWith secret ∈ sc.middlewares ∧
    ∃ r ∈ sc.resources, h ∈ r.methods.map Prod.snd

/-- C8: every enumerated API operation (token derivation included) is
registered inside the scope carrying the token middleware constructed from
the shared secret, and every resource registration of the whole application
lives in such a scope. -/
theorem api_scope_token_protected (secret : List Nat) :
    (∀ h ∈ apiHandlers, handlerProtectedBy (create_app secret) secret h) ∧
    (∀ sc ∈ (create_app secret).scopes, sc.resources ≠ [] →
        Middleware.tokenParserWith secret ∈ sc.middlewares) := by
  constructor
  · intro h hmem
    simp only [apiHandlers, List.mem_cons, List.not_mem_nil, or_false] at hmem
    rcases hmem with rfl | rfl | rfl | rfl | rfl | rfl | rfl | rfl | rfl | rfl |
      rfl | rfl | rfl | rfl <;>
      exact ⟨api_v1_scope secret, List.Mem.head _, List.Mem.head _, by
        simp only [api_v1_scope]
        decide⟩
  · intro sc hsc hres
    simp only [create_app, List.mem_cons, List.not_mem_nil, or_false] at hsc
    rcases hsc with rfl | rfl
    · exact List.Mem.head _
    · exact absurd rfl hres

/-- C8 witness: the upload operation behind a concrete secret. -/
theorem api_scope_token_protected_witness :
    handlerProtectedBy (create_app [1, 2, 3]) [1, 2, 3] "upload" :=
  (api_scope_token_protected [1, 2, 3]).1 "upload" (by decide)

end RepoManager
